import Mathlib

/-!
Shallow embedding of the godot-explorer core components, translated from the
Rust sources:

* `src/lib/src/http_request/http_queue_requester.rs` — priority HTTP queue
  (`QueueRequest`, its `Ord` instance, `process_queue` pop discipline,
  `process_request` response decoding and error taxonomy).
* `src/rust/decentraland-godot-lib/src/dcl/js/mod.rs` — scene thread
  (`create_runtime` op map, snapshot replay, main-script loading, tick loop
  timing, teardown, `op_require`, `get_env_for_scene`).
* `src/rust/decentraland-godot-lib/src/dcl/mod.rs` — `SceneId`,
  `SceneResponse`.
* `src/rust/decentraland-godot-lib/src/comms/communication_manager.rs` —
  `broadcast_position_and_rotation`.

Machine integers are modelled as `Nat` with explicit `% 2 ^ w` where the
source truncates (`index as u32`) or can wrap (`u64` increment).  Fallible
Rust paths (`?`, panics) are modelled with `Except`.  Out-of-repository
collaborators (the network transport, the file system, the CRDT internals,
the comms adapters, the JSON parser) enter as explicit parameters, so the
in-repository control flow stays exactly as in the source.
-/

/- ### HTTP queue: `src/lib/src/http_request/http_queue_requester.rs` -/

/-- Model of `ResponseType` from `request_response.rs` as used by `process_request`:
the four response-decoding modes. -/
inductive ResponseType where
  | asString : ResponseType
  | asBytes : ResponseType
  | toFile : String → ResponseType
  | asJson : ResponseType
deriving DecidableEq, Repr

/-- Model of `RequestOption`: the request descriptor fields consumed by
`process_request` (method/url kept as plain strings, body as raw bytes,
timeout in nanoseconds). -/
structure RequestOption where
  id : Nat
  url : String
  method : String
  body : Option (List Nat)
  headers : Option (List (String × String))
  timeout : Option Nat
  response_type : ResponseType
deriving DecidableEq, Repr

/-- Model of `QueueRequest`: one queued job.  The `response_sender` oneshot endpoint and
the inspector sender are channel handles, not value-level data, so only the
fields that the `Eq`/`Ord` instances and the dispatch logic read are kept. -/
structure QueueRequest where
  id : Nat
  priority : Nat
  request_option : Option RequestOption
deriving DecidableEq, Repr

/-- Model of `Ord for QueueRequest`: `other.priority.cmp(&self.priority)` — the
comparison is reversed so that Rust's max-`BinaryHeap` pops the job with the
smallest numeric priority value. -/
def queueRequestCmp (self other : QueueRequest) : Ordering :=
  compare other.priority self.priority

/-- Model of `BinaryHeap::push` on the heap modelled as an unordered list of its
elements. -/
def heapPush (heap : List QueueRequest) (q : QueueRequest) : List QueueRequest :=
  q :: heap

/-- Model of `BinaryHeap::pop`: removes and returns a maximal element under
`queueRequestCmp` (ties between equal priorities are broken arbitrarily by a
real binary heap; this model keeps the first maximal element found). -/
def heapPop : List QueueRequest → Option (QueueRequest × List QueueRequest)
  | [] => none
  | q :: rest =>
    match heapPop rest with
    | none => some (q, [])
    | some (m, rest2) =>
      if queueRequestCmp q m = Ordering.lt then some (m, q :: rest2) else some (q, rest)

theorem heapPop_none_iff (heap : List QueueRequest) :
    heapPop heap = none ↔ heap = [] := by
  cases heap with
  | nil => simp [heapPop]
  | cons q rest =>
    simp only [heapPop]
    constructor
    · intro h
      cases hrest : heapPop rest with
      | none => simp [hrest] at h
      | some p =>
        rcases p with ⟨m, rest2⟩
        rw [hrest] at h
        by_cases hc : queueRequestCmp q m = Ordering.lt <;> simp [hc] at h
    · intro h
      exact absurd h (List.cons_ne_nil q rest)

theorem heapPop_min (heap : List QueueRequest) (q : QueueRequest)
    (rest : List QueueRequest) (hpop : heapPop heap = some (q, rest)) :
    ∀ r ∈ heap, q.priority ≤ r.priority := by
  induction heap generalizing q rest with
  | nil => simp [heapPop] at hpop
  | cons x xs ih =>
    simp only [heapPop] at hpop
    cases hrest : heapPop xs with
    | none =>
      rw [hrest] at hpop
      have hnil : xs = [] := (heapPop_none_iff xs).mp hrest
      subst hnil
      simp only [Option.some.injEq, Prod.mk.injEq] at hpop
      rcases hpop with ⟨h1, h2⟩
      subst h1
      intro r hr
      simp only [List.mem_cons, List.not_mem_nil, or_false] at hr
      subst hr
      exact Nat.le_refl _
    | some p =>
      rcases p with ⟨m, rest2⟩
      rw [hrest] at hpop
      have hmin : ∀ r ∈ xs, m.priority ≤ r.priority := ih m rest2 hrest
      by_cases hc : queueRequestCmp x m = Ordering.lt
      · simp [hc] at hpop
        rcases hpop with ⟨h1, h2⟩
        subst h1
        have hxm : m.priority < x.priority := by
          simpa [queueRequestCmp, Nat.compare_eq_lt] using hc
        intro r hr
        rcases List.mem_cons.mp hr with h | h
        · subst h; exact Nat.le_of_lt hxm
        · exact hmin r h
      · simp [hc] at hpop
        rcases hpop with ⟨h1, h2⟩
        subst h1
        have hxm : x.priority ≤ m.priority := by
          simp only [queueRequestCmp, Nat.compare_eq_lt] at hc
          omega
        intro r hr
        rcases List.mem_cons.mp hr with h | h
        · subst h; exact Nat.le_refl _
        · exact Nat.le_trans hxm (hmin r h)

deriving instance DecidableEq for Except

/-- Model of `RequestResponseError`: the typed transport-level error, carrying the
originating job's id and a message. -/
structure RequestResponseError where
  id : Nat
  error_message : String
deriving DecidableEq, Repr

/-- Model of `ResponseEnum` over an abstract JSON-value type `J`: the decoded payload.
`toFile` holds `Result<String, io::Error>` (path on success), `json` holds
`Result<Value, serde_json::Error>`; both error types are modelled as their
message strings. -/
inductive ResponseEnum (J : Type) where
  | string : String → ResponseEnum J
  | bytes : List Nat → ResponseEnum J
  | toFile : Except String String → ResponseEnum J
  | json : Except String J → ResponseEnum J
deriving DecidableEq, Repr

/-- Model of `RequestResponse`: the overall successful result. -/
structure RequestResponse (J : Type) where
  headers : Option (List (String × String))
  request_option : RequestOption
  status_code : Nat
  response_data : Except String (ResponseEnum J)
deriving DecidableEq, Repr

/-- Outcome of `request.send().await` plus the body read, supplied by the
out-of-repository `reqwest` transport: either the send fails, or a response
arrives with a status, headers, and a body read that may itself fail. -/
inductive TransportResult where
  | sendErr : String → TransportResult
  | response : Nat → List (String × String) → Except String (List Nat) → TransportResult
deriving DecidableEq, Repr

/-- Outcomes of `tokio::fs::File::create` and `file.write_all`, supplied by
the out-of-repository file system. -/
structure FileSysOutcome where
  createResult : Except String Unit
  writeResult : Except String Unit
deriving DecidableEq, Repr

/-- State of the destination file after `process_request` returns: untouched,
create failed, fully written with the given bytes, or left after a failed
`write_all` (an unspecified prefix of the body). -/
inductive FileOutcome where
  | untouched : FileOutcome
  | createFailed : FileOutcome
  | written : List Nat → FileOutcome
  | writeFailed : FileOutcome
deriving DecidableEq, Repr

/-- Model of `NetworkInspectEvent::new_request` id validity as computed in `request`:
a valid inspector id is produced iff the global `NETWORK_INSPECTOR_ENABLE`
flag is set and this dispatcher has an inspector sender; otherwise the id is
`NetworkInspectorId::INVALID`. -/
def inspectorIdValid (networkInspectorEnable : Bool) (hasInspectorSender : Bool) : Bool :=
  networkInspectorEnable && hasInspectorSender

/-- Model of `HttpQueueRequester::process_request`, branch for branch from the source.
`fromStr` stands for `serde_json::from_str`, `textOf` for
`reqwest::Response::text` applied to the body bytes, `inspectValid` for
`network_inspector_id.is_valid()`.  The per-job timeout
`request_option.timeout.unwrap_or(60 s)` only feeds the transport, which is
abstracted into `tr`.  Returns the `Result` together with the destination
file state. -/
def process_request (J : Type) (fromStr : String → Except String J)
    (textOf : List Nat → String) (request_option : RequestOption)
    (inspectValid : Bool) (tr : TransportResult) (fio : FileSysOutcome) :
    Except RequestResponseError (RequestResponse J) × FileOutcome :=
  match tr with
  | TransportResult.sendErr msg =>
    (Except.error { id := request_option.id, error_message := msg }, FileOutcome.untouched)
  | TransportResult.response status_code hdrs bodyRes =>
    -- body/headers were `take`n into the request builder before sending
    let ro2 : RequestOption := { request_option with body := none, headers := none }
    let headers : Option (List (String × String)) :=
      if inspectValid then some hdrs else none
    match request_option.response_type with
    | ResponseType.asString =>
      match bodyRes with
      | Except.error m =>
        (Except.error { id := request_option.id, error_message := m }, FileOutcome.untouched)
      | Except.ok b =>
        (Except.ok { headers := headers, request_option := ro2, status_code := status_code,
                     response_data := Except.ok (ResponseEnum.string (textOf b)) },
         FileOutcome.untouched)
    | ResponseType.asBytes =>
      match bodyRes with
      | Except.error m =>
        (Except.error { id := request_option.id, error_message := m }, FileOutcome.untouched)
      | Except.ok b =>
        (Except.ok { headers := headers, request_option := ro2, status_code := status_code,
                     response_data := Except.ok (ResponseEnum.bytes b) },
         FileOutcome.untouched)
    | ResponseType.toFile file_path =>
      match bodyRes with
      | Except.error m =>
        (Except.error { id := request_option.id, error_message := m }, FileOutcome.untouched)
      | Except.ok content =>
        match fio.createResult with
        | Except.error e =>
          -- `File::create(..).await.map_err(..)?` escalates to the overall error
          (Except.error { id := request_option.id, error_message := e }, FileOutcome.createFailed)
        | Except.ok _ =>
          match fio.writeResult with
          | Except.ok _ =>
            -- `result.map(|_| file_path)`: the success value is the path
            (Except.ok { headers := headers, request_option := ro2, status_code := status_code,
                         response_data := Except.ok (ResponseEnum.toFile (Except.ok file_path)) },
             FileOutcome.written content)
          | Except.error e =>
            -- a failed `write_all` stays inside the `ResponseEnum`, not `?`-escalated
            (Except.ok { headers := headers, request_option := ro2, status_code := status_code,
                         response_data := Except.ok (ResponseEnum.toFile (Except.error e)) },
             FileOutcome.writeFailed)
    | ResponseType.asJson =>
      match bodyRes with
      | Except.error m =>
        (Except.error { id := request_option.id, error_message := m }, FileOutcome.untouched)
      | Except.ok b =>
        (Except.ok { headers := headers, request_option := ro2, status_code := status_code,
                     response_data := Except.ok (ResponseEnum.json (fromStr (textOf b))) },
         FileOutcome.untouched)

/-- C4: every dispatch pop removes a job with the smallest numeric priority
value among all jobs currently in the queue; and pushing a priority-10 job
followed by a priority-1 job onto the empty queue, then performing the two
sequential dispatch pops (dispatcher concurrency one), serves the priority-1
job first and the priority-10 job second. -/
theorem process_queue_pops_min_priority :
    (∀ (heap : List QueueRequest) (q : QueueRequest) (rest : List QueueRequest),
        heapPop heap = some (q, rest) → ∀ r ∈ heap, q.priority ≤ r.priority) ∧
    (heapPop (heapPush (heapPush []
          { id := 1, priority := 10, request_option := none })
          { id := 2, priority := 1, request_option := none }) =
        some ({ id := 2, priority := 1, request_option := none },
              [{ id := 1, priority := 10, request_option := none }]) ∧
      heapPop [{ id := 1, priority := 10, request_option := none }] =
        some ({ id := 1, priority := 10, request_option := none }, [])) := by
  refine ⟨heapPop_min, ?_, ?_⟩ <;> decide

/-- C4 witness: the universally quantified pop-minimality part applied to the
concrete two-element queue. -/
theorem process_queue_pops_min_priority_witness :
    ∀ r ∈ ([{ id := 2, priority := 1, request_option := none },
            { id := 1, priority := 10, request_option := none }] : List QueueRequest),
      ({ id := 2, priority := 1, request_option := none } : QueueRequest).priority ≤ r.priority :=
  process_queue_pops_min_priority.1
    [{ id := 2, priority := 1, request_option := none },
     { id := 1, priority := 10, request_option := none }]
    { id := 2, priority := 1, request_option := none }
    [{ id := 1, priority := 10, request_option := none }]
    (by decide)

/-- C5: for an `AsJson` job whose transport succeeds but whose body fails to
parse, `process_request` returns an overall `Ok` whose `response_data` embeds
the decode error; a transport send failure instead returns an overall `Err`
carrying the originating job's id.  The two outcomes live in different
`Except` constructors, so a decode failure is never escalated to a transport
failure. -/
theorem as_json_decode_error_not_transport (J : Type)
    (fromStr : String → Except String J) (textOf : List Nat → String)
    (ro : RequestOption) (inspectValid : Bool) (status : Nat)
    (hdrs : List (String × String)) (body : List Nat) (e : String)
    (fio : FileSysOutcome)
    (hjson : ro.response_type = ResponseType.asJson)
    (hdecode : fromStr (textOf body) = Except.error e) :
    (process_request J fromStr textOf ro inspectValid
        (TransportResult.response status hdrs (Except.ok body)) fio).1 =
      Except.ok { headers := if inspectValid then some hdrs else none,
                  request_option := { ro with body := none, headers := none },
                  status_code := status,
                  response_data := Except.ok (ResponseEnum.json (Except.error e)) } ∧
    (∀ msg, (process_request J fromStr textOf ro inspectValid
        (TransportResult.sendErr msg) fio).1 =
      Except.error { id := ro.id, error_message := msg }) := by
  constructor
  · simp [process_request, hjson, hdecode]
  · intro msg
    simp [process_request]

/-- C5 witness: the theorem applied at a concrete job, transport, and failing
parser. -/
theorem as_json_decode_error_not_transport_witness :
    (process_request Unit (fun _ => Except.error "expected value") (fun _ => "")
        { id := 5, url := "u", method := "GET", body := none, headers := none,
          timeout := none, response_type := ResponseType.asJson } false
        (TransportResult.response 200 [] (Except.ok [1, 2]))
        { createResult := Except.ok (), writeResult := Except.ok () }).1 =
      Except.ok { headers := none,
                  request_option := { id := 5, url := "u", method := "GET", body := none,
                                      headers := none, timeout := none,
                                      response_type := ResponseType.asJson },
                  status_code := 200,
                  response_data := Except.ok (ResponseEnum.json (Except.error "expected value")) } ∧
    (process_request Unit (fun _ => Except.error "expected value") (fun _ => "")
        { id := 5, url := "u", method := "GET", body := none, headers := none,
          timeout := none, response_type := ResponseType.asJson } false
        (TransportResult.sendErr "connection refused")
        { createResult := Except.ok (), writeResult := Except.ok () }).1 =
      Except.error { id := 5, error_message := "connection refused" } := by
  have h := as_json_decode_error_not_transport Unit
    (fun _ => Except.error "expected value") (fun _ => "")
    { id := 5, url := "u", method := "GET", body := none, headers := none,
      timeout := none, response_type := ResponseType.asJson } false 200 [] [1, 2]
    "expected value" { createResult := Except.ok (), writeResult := Except.ok () }
    rfl rfl
  exact ⟨h.1, h.2 "connection refused"⟩

/-- C6 counterexample: for a stream-to-file job whose body arrives but whose
`write_all` fails, `process_request` returns an overall `Except.ok` (the I/O
failure sits inside the `ResponseEnum`), so a write failure does not surface
like a transport failure, contrary to the claim. -/
theorem to_file_write_failure_stays_ok_cex :
    process_request Unit (fun _ => Except.error "") (fun _ => "")
        { id := 7, url := "u", method := "GET", body := none, headers := none,
          timeout := none, response_type := ResponseType.toFile "/tmp/out.bin" } false
        (TransportResult.response 200 [] (Except.ok [1, 2, 3]))
        { createResult := Except.ok (), writeResult := Except.error "disk full" } =
      (Except.ok { headers := none,
                   request_option := { id := 7, url := "u", method := "GET", body := none,
                                       headers := none, timeout := none,
                                       response_type := ResponseType.toFile "/tmp/out.bin" },
                   status_code := 200,
                   response_data := Except.ok (ResponseEnum.toFile (Except.error "disk full")) },
       FileOutcome.writeFailed) := by
  rfl

/-- C6 amended: for a stream-to-file job, a create failure escalates to an
overall transport-style error carrying the job id; a write failure is instead
captured as a value-level I/O error inside an otherwise-successful result;
when both create and write succeed, the success value is the destination path
and the destination file contains exactly the body bytes; the path is never
reported as a success value unless the file was fully written. -/
theorem to_file_create_vs_write_failure (J : Type)
    (fromStr : String → Except String J) (textOf : List Nat → String)
    (ro : RequestOption) (inspectValid : Bool) (status : Nat)
    (hdrs : List (String × String)) (content : List Nat) (path : String)
    (fio : FileSysOutcome)
    (hfile : ro.response_type = ResponseType.toFile path) :
    (∀ e, fio.createResult = Except.error e →
        process_request J fromStr textOf ro inspectValid
            (TransportResult.response status hdrs (Except.ok content)) fio =
          (Except.error { id := ro.id, error_message := e }, FileOutcome.createFailed)) ∧
    (∀ e, fio.createResult = Except.ok () → fio.writeResult = Except.error e →
        process_request J fromStr textOf ro inspectValid
            (TransportResult.response status hdrs (Except.ok content)) fio =
          (Except.ok { headers := if inspectValid then some hdrs else none,
                       request_option := { ro with body := none, headers := none },
                       status_code := status,
                       response_data := Except.ok (ResponseEnum.toFile (Except.error e)) },
           FileOutcome.writeFailed)) ∧
    (fio.createResult = Except.ok () → fio.writeResult = Except.ok () →
        process_request J fromStr textOf ro inspectValid
            (TransportResult.response status hdrs (Except.ok content)) fio =
          (Except.ok { headers := if inspectValid then some hdrs else none,
                       request_option := { ro with body := none, headers := none },
                       status_code := status,
                       response_data := Except.ok (ResponseEnum.toFile (Except.ok path)) },
           FileOutcome.written content)) ∧
    (∀ r, (process_request J fromStr textOf ro inspectValid
            (TransportResult.response status hdrs (Except.ok content)) fio).1 = Except.ok r →
        r.response_data = Except.ok (ResponseEnum.toFile (Except.ok path)) →
        (process_request J fromStr textOf ro inspectValid
            (TransportResult.response status hdrs (Except.ok content)) fio).2 =
          FileOutcome.written content) := by
  refine ⟨?_, ?_, ?_, ?_⟩
  · intro e he
    simp [process_request, hfile, he]
  · intro e hc hw
    simp [process_request, hfile, hc, hw]
  · intro hc hw
    simp [process_request, hfile, hc, hw]
  · intro r hr hdata
    cases hc : fio.createResult with
    | error e =>
      simp [process_request, hfile, hc] at hr
    | ok u =>
      cases hw : fio.writeResult with
      | error e =>
        simp [process_request, hfile, hc, hw] at hr
        rw [← hr] at hdata
        simp at hdata
      | ok u2 =>
        simp [process_request, hfile, hc, hw]

/-- C6 witness: the amended theorem applied at a concrete 3-byte body with a
fully succeeding file system, and at a failing create. -/
theorem to_file_create_vs_write_failure_witness :
    (process_request Unit (fun _ => Except.error "") (fun _ => "")
        { id := 7, url := "u", method := "GET", body := none, headers := none,
          timeout := none, response_type := ResponseType.toFile "/tmp/out.bin" } false
        (TransportResult.response 200 [] (Except.ok [1, 2, 3]))
        { createResult := Except.ok (), writeResult := Except.ok () } =
      (Except.ok { headers := none,
                   request_option := { id := 7, url := "u", method := "GET", body := none,
                                       headers := none, timeout := none,
                                       response_type := ResponseType.toFile "/tmp/out.bin" },
                   status_code := 200,
                   response_data := Except.ok (ResponseEnum.toFile (Except.ok "/tmp/out.bin")) },
       FileOutcome.written [1, 2, 3])) ∧
    (process_request Unit (fun _ => Except.error "") (fun _ => "")
        { id := 7, url := "u", method := "GET", body := none, headers := none,
          timeout := none, response_type := ResponseType.toFile "/tmp/out.bin" } false
        (TransportResult.response 200 [] (Except.ok [1, 2, 3]))
        { createResult := Except.error "permission denied", writeResult := Except.ok () } =
      (Except.error { id := 7, error_message := "permission denied" },
       FileOutcome.createFailed)) := by
  constructor
  · exact (to_file_create_vs_write_failure Unit (fun _ => Except.error "") (fun _ => "")
      { id := 7, url := "u", method := "GET", body := none, headers := none,
        timeout := none, response_type := ResponseType.toFile "/tmp/out.bin" } false 200 []
      [1, 2, 3] "/tmp/out.bin"
      { createResult := Except.ok (), writeResult := Except.ok () } rfl).2.2.1 rfl rfl
  · exact (to_file_create_vs_write_failure Unit (fun _ => Except.error "") (fun _ => "")
      { id := 7, url := "u", method := "GET", body := none, headers := none,
        timeout := none, response_type := ResponseType.toFile "/tmp/out.bin" } false 200 []
      [1, 2, 3] "/tmp/out.bin"
      { createResult := Except.error "permission denied", writeResult := Except.ok () }
      rfl).1 "permission denied" rfl

/-- C7 counterexample: with inspection disabled, `process_request` still
captures the response status code (200 here) on the returned result; only the
headers are omitted, contrary to the claim that no header/status metadata is
carried when inspection is disabled. -/
theorem status_captured_without_inspection_cex :
    (process_request Unit (fun _ => Except.error "") (fun _ => "")
        { id := 9, url := "u", method := "GET", body := none, headers := none,
          timeout := none, response_type := ResponseType.asString } false
        (TransportResult.response 200 [("x-h", "v")] (Except.ok []))
        { createResult := Except.ok (), writeResult := Except.ok () }).1 =
      Except.ok { headers := none,
                  request_option := { id := 9, url := "u", method := "GET", body := none,
                                      headers := none, timeout := none,
                                      response_type := ResponseType.asString },
                  status_code := 200,
                  response_data := Except.ok (ResponseEnum.string "") } := by
  rfl

/-- C7 amended: response headers are attached to the result exactly when the
job's inspector id is valid (which happens iff global inspection is enabled
and an inspector sender exists), while the status code is captured on every
successful result regardless of inspection. -/
theorem headers_gated_by_inspection_status_always (J : Type)
    (fromStr : String → Except String J) (textOf : List Nat → String)
    (ro : RequestOption) (inspectValid : Bool) (status : Nat)
    (hdrs : List (String × String)) (bodyRes : Except String (List Nat))
    (fio : FileSysOutcome) :
    (∀ r, (process_request J fromStr textOf ro inspectValid
            (TransportResult.response status hdrs bodyRes) fio).1 = Except.ok r →
        r.headers = (if inspectValid then some hdrs else none) ∧
        r.status_code = status) ∧
    (∀ enable hasSender,
        inspectorIdValid enable hasSender = true ↔ (enable = true ∧ hasSender = true)) := by
  constructor
  · intro r hr
    cases hbody : bodyRes with
    | error m =>
      cases hrt : ro.response_type <;>
        simp [process_request, hrt, hbody] at hr
    | ok b =>
      cases hrt : ro.response_type with
      | asString =>
        simp [process_request, hrt, hbody] at hr
        rw [← hr]
        exact ⟨rfl, rfl⟩
      | asBytes =>
        simp [process_request, hrt, hbody] at hr
        rw [← hr]
        exact ⟨rfl, rfl⟩
      | toFile path =>
        cases hc : fio.createResult with
        | error e => simp [process_request, hrt, hbody, hc] at hr
        | ok u =>
          cases hw : fio.writeResult with
          | error e =>
            simp [process_request, hrt, hbody, hc, hw] at hr
            rw [← hr]
            exact ⟨rfl, rfl⟩
          | ok u2 =>
            simp [process_request, hrt, hbody, hc, hw] at hr
            rw [← hr]
            exact ⟨rfl, rfl⟩
      | asJson =>
        simp [process_request, hrt, hbody] at hr
        rw [← hr]
        exact ⟨rfl, rfl⟩
  · intro enable hasSender
    cases enable <;> cases hasSender <;> simp [inspectorIdValid]

/-- C7 witness: the amended theorem applied at a concrete job with inspection
enabled, observing the attached headers and status, and at the inspector-id
validity equivalence for enabled flags. -/
theorem headers_gated_by_inspection_witness :
    (({ headers := some [("x-h", "v")],
        request_option := { id := 9, url := "u", method := "GET", body := none,
                            headers := none, timeout := none,
                            response_type := ResponseType.asString },
        status_code := 200,
        response_data := Except.ok (ResponseEnum.string "") } : RequestResponse Unit).headers =
        (if true then some [("x-h", "v")] else none) ∧
      ({ headers := some [("x-h", "v")],
         request_option := { id := 9, url := "u", method := "GET", body := none,
                             headers := none, timeout := none,
                             response_type := ResponseType.asString },
         status_code := 200,
         response_data := Except.ok (ResponseEnum.string "") } : RequestResponse Unit).status_code =
        200) ∧
    (inspectorIdValid true true = true ↔ (true = true ∧ true = true)) := by
  constructor
  · exact (headers_gated_by_inspection_status_always Unit (fun _ => Except.error "")
      (fun _ => "")
      { id := 9, url := "u", method := "GET", body := none, headers := none,
        timeout := none, response_type := ResponseType.asString } true 200 [("x-h", "v")]
      (Except.ok []) { createResult := Except.ok (), writeResult := Except.ok () }).1
      { headers := some [("x-h", "v")],
        request_option := { id := 9, url := "u", method := "GET", body := none,
                            headers := none, timeout := none,
                            response_type := ResponseType.asString },
        status_code := 200,
        response_data := Except.ok (ResponseEnum.string "") } rfl
  · exact (headers_gated_by_inspection_status_always Unit (fun _ => Except.error "")
      (fun _ => "")
      { id := 9, url := "u", method := "GET", body := none, headers := none,
        timeout := none, response_type := ResponseType.asString } true 200 [("x-h", "v")]
      (Except.ok []) { createResult := Except.ok (), writeResult := Except.ok () }).2 true true

/- ### Capability map construction: `create_runtime`
   (`src/rust/decentraland-godot-lib/src/dcl/js/mod.rs`) -/

/-- Model of `deno_core::OpDecl`: a named op registration; the native implementation is
abstracted to a numeric tag. -/
structure OpDecl where
  name : String
  impl : Nat
deriving DecidableEq, Repr

/-- The `op_map: HashMap<&str, OpDecl>` of `create_runtime`, modelled by its
lookup function. -/
def OpMap : Type := String → Option OpDecl

/-- Model of `HashMap::insert`: binds `k` to `v`, replacing any existing binding for
`k`.  `HashMap::insert` returns the evicted value, which `create_runtime`
discards, so no conflict can be observed. -/
def opMapInsert (m : OpMap) (k : String) (v : OpDecl) : OpMap :=
  fun x => if x = k then some v else m x

/-- Model of `HashMap::new()`. -/
def emptyOpMap : OpMap := fun _ => none

/-- The inner loop of `create_runtime`: `for op in &set { op_map.insert(op.name, *op) }`. -/
def registerOps (m : OpMap) (ops : List OpDecl) : OpMap :=
  ops.foldl (fun acc op => opMapInsert acc op.name op) m

/-- The outer loop of `create_runtime` over the eleven `op_sets`, building the
capability map. -/
def buildOpMap (op_sets : List (List OpDecl)) : OpMap :=
  op_sets.foldl (fun acc set => registerOps acc set) emptyOpMap

/-- The `middleware` closure of `create_runtime`: every default op whose name
appears in `op_map` has its implementation replaced
(`op.with_implementation_from(custom_op)`); others pass through. -/
def middleware (op_map : OpMap) (op : OpDecl) : OpDecl :=
  match op_map op.name with
  | some custom => custom
  | none => op

theorem registerOps_lookup (ops : List OpDecl) : ∀ (m : OpMap) (k : String),
    registerOps m ops k =
      ((ops.filter (fun o => o.name = k)).getLast?).elim (m k) some := by
  induction ops with
  | nil =>
    intro m k
    simp [registerOps]
  | cons o rest ih =>
    intro m k
    have hstep : registerOps m (o :: rest) = registerOps (opMapInsert m o.name o) rest := rfl
    rw [hstep, ih (opMapInsert m o.name o) k]
    by_cases ho : o.name = k
    · simp only [List.filter_cons, ho, decide_eq_true_eq, if_pos]
      cases hres : rest.filter (fun o => decide (o.name = k)) with
      | nil =>
        simp [opMapInsert, ho]
      | cons y ys =>
        cases hz : (y :: ys).getLast? with
        | none => simp at hz
        | some z => simp [hz]
    · have hne : (decide (o.name = k)) = false := by simp [ho]
      simp only [List.filter_cons, hne, Bool.false_eq_true, if_false]
      have hbase : opMapInsert m o.name o k = m k := by
        simp only [opMapInsert]
        rw [if_neg (fun h => ho h.symm)]
      rw [hbase]

theorem buildOpMap_flatten (op_sets : List (List OpDecl)) :
    buildOpMap op_sets = registerOps emptyOpMap op_sets.flatten := by
  have hgen : ∀ (sets : List (List OpDecl)) (m : OpMap),
      sets.foldl (fun acc set => registerOps acc set) m = registerOps m sets.flatten := by
    intro sets
    induction sets with
    | nil => intro m; simp [registerOps]
    | cons s rest ih =>
      intro m
      rw [List.foldl_cons, ih (registerOps m s)]
      simp only [registerOps, List.flatten_cons, List.foldl_append]
  exact hgen op_sets emptyOpMap

/-- C1 counterexample: registering two ops under the same name `"op_x"` while
building the capability map produces a total map in which the second
registration has silently replaced the first — no registration-time conflict
error exists anywhere in the construction. -/
theorem opmap_silent_override_cex :
    buildOpMap [[{ name := "op_x", impl := 0 }], [{ name := "op_x", impl := 1 }]] "op_x" =
      some { name := "op_x", impl := 1 } := by
  rfl

/-- C1 amended: the capability-map construction of `create_runtime` never
fails; for every name, the map holds the last op registered under that name,
i.e. a later same-named registration silently overrides an earlier one, and
the middleware replaces every same-named default binding with the mapped op
(not just a single replacement). -/
theorem opmap_last_registration_wins (op_sets : List (List OpDecl)) (k : String) :
    buildOpMap op_sets k = (op_sets.flatten.filter (fun o => o.name = k)).getLast? ∧
    (∀ op : OpDecl, buildOpMap op_sets op.name = none → middleware (buildOpMap op_sets) op = op) ∧
    (∀ op custom, buildOpMap op_sets op.name = some custom →
        middleware (buildOpMap op_sets) op = custom) := by
  refine ⟨?_, ?_, ?_⟩
  · rw [buildOpMap_flatten, registerOps_lookup]
    cases (op_sets.flatten.filter (fun o => o.name = k)).getLast? with
    | none => simp [emptyOpMap]
    | some o => simp
  · intro op h
    simp [middleware, h]
  · intro op custom h
    simp [middleware, h]

/-- C1 witness: the amended theorem applied to the duplicate-name op sets,
observing the last registration in the map and the middleware replacement. -/
theorem opmap_last_registration_wins_witness :
    buildOpMap [[{ name := "op_x", impl := 0 }], [{ name := "op_x", impl := 1 }]] "op_x" =
      (([[{ name := "op_x", impl := 0 }], [{ name := "op_x", impl := 1 }]] :
          List (List OpDecl)).flatten.filter (fun o => o.name = "op_x")).getLast? ∧
    middleware (buildOpMap [[{ name := "op_x", impl := 0 }], [{ name := "op_x", impl := 1 }]])
        { name := "op_x", impl := 5 } = { name := "op_x", impl := 1 } := by
  have h := opmap_last_registration_wins
    [[{ name := "op_x", impl := 0 }], [{ name := "op_x", impl := 1 }]] "op_x"
  exact ⟨h.1, h.2.2 { name := "op_x", impl := 5 } { name := "op_x", impl := 1 } rfl⟩

/- ### Scene thread: `src/rust/decentraland-godot-lib/src/dcl/mod.rs` and
   `src/rust/decentraland-godot-lib/src/dcl/js/mod.rs` -/

/-- Model of `SceneId(pub i32)`. -/
structure SceneId where
  val : Int
deriving DecidableEq, Repr

/-- Model of `SceneId::INVALID`. -/
def SceneId.INVALID : SceneId := { val := -1 }

/-- Model of `SceneLogLevel` from `dcl/common`. -/
inductive SceneLogLevel where
  | log : SceneLogLevel
  | sceneError : SceneLogLevel
deriving DecidableEq, Repr

/-- Model of `SceneLogMessage`; the `f64` timestamp is modelled as a rational (no
floating-point arithmetic is performed on it in the modelled paths). -/
structure SceneLogMessage where
  timestamp : Rat
  level : SceneLogLevel
  message : String
deriving DecidableEq, Repr

/-- Model of `SceneResponse` from `dcl/mod.rs`, parametric over the dirty-state type
`D` (`DirtyCrdtState`) and the queued-call type `R` (`RpcCall`), both owned by
out-of-repository modules.  The `f32` elapsed-seconds field of `Ok` is
modelled as a rational; the modelled paths only ever send the literal `0.0`.
`takeSnapshot`'s testing payload is irrelevant here and kept as the scene id
only. -/
inductive SceneResponse (D R : Type) where
  | error : SceneId → String → SceneResponse D R
  | ok : SceneId → D → List SceneLogMessage → Rat → List R → SceneResponse D R
  | removeGodotScene : SceneId → List SceneLogMessage → SceneResponse D R
  | takeSnapshot : SceneId → SceneResponse D R
deriving DecidableEq, Repr

/-- The slice of thread-local state the teardown code (end of `scene_thread`)
touches: the buffered `SceneLogs` and the global `VM_HANDLES` registry
(modelled by the list of registered scene ids). -/
structure TeardownState where
  sceneLogs : List SceneLogMessage
  vmHandles : List SceneId
deriving DecidableEq, Repr

/-- Observable effects of the teardown code. -/
structure TeardownEffects (D R : Type) where
  sceneLogs : List SceneLogMessage
  sent : List (SceneResponse D R)
  terminateExecutionCalled : Bool
  vmHandles : List SceneId
deriving DecidableEq, Repr

/-- The code after the `Running` loop of `scene_thread` (executed when the
loop breaks on an `onUpdate` error or on the `SceneDying` flag):
`op_state.take::<SceneLogs>()` drains the log buffer, the
`RemoveGodotScene` response is sent (send failure ignored), and
`terminate_execution()` is invoked.  No entry is removed from `VM_HANDLES`. -/
def sceneThreadTeardown (D R : Type) (scene_id : SceneId) (st : TeardownState) :
    TeardownEffects D R :=
  let logs := st.sceneLogs
  { sceneLogs := [],
    sent := [SceneResponse.removeGodotScene scene_id logs],
    terminateExecutionCalled := true,
    vmHandles := st.vmHandles }

/-- C2 counterexample: a scene thread leaving the Running loop with its id
registered in `VM_HANDLES` drains the logs, sends the removal notice and
interrupts the engine, but its `VM_HANDLES` entry is still present when the
thread exits — the registry entry is never removed, contrary to the claim. -/
theorem scene_teardown_keeps_vm_handle_cex :
    sceneThreadTeardown Unit Unit { val := 7 }
        { sceneLogs := [{ timestamp := 0, level := SceneLogLevel.log, message := "bye" }],
          vmHandles := [{ val := 7 }] } =
      { sceneLogs := [],
        sent := [SceneResponse.removeGodotScene { val := 7 }
                  [{ timestamp := 0, level := SceneLogLevel.log, message := "bye" }]],
        terminateExecutionCalled := true,
        vmHandles := [{ val := 7 }] } := by
  rfl

/-- C2 amended: on leaving the Running loop the scene thread drains the
buffered logs, sends exactly one removal-notice `SceneResponse` carrying
them, and forcibly interrupts the script engine; the scene's `VM_HANDLES`
entry, however, is left unchanged (never removed). -/
theorem scene_teardown_effects (D R : Type) (scene_id : SceneId) (st : TeardownState) :
    (sceneThreadTeardown D R scene_id st).sceneLogs = [] ∧
    (sceneThreadTeardown D R scene_id st).sent =
      [SceneResponse.removeGodotScene scene_id st.sceneLogs] ∧
    (sceneThreadTeardown D R scene_id st).terminateExecutionCalled = true ∧
    (sceneThreadTeardown D R scene_id st).vmHandles = st.vmHandles := by
  exact ⟨rfl, rfl, rfl, rfl⟩

/-- Model of `SystemTime::duration_since`: `Ok(now - start)` when `now` is not earlier
than `start`, `Err` otherwise (times and durations in nanoseconds). -/
def durationSince (now start : Nat) : Option Nat :=
  if start ≤ now then some (now - start) else none

/-- One iteration of the timing prologue of the `Running` loop:
`dt = now.duration_since(start_time).unwrap_or(elapsed) - elapsed;
elapsed += dt`.  Rust's `Duration` subtraction panics on underflow, modelled
as `Except.error`; `dt` is returned as an `Int` so that its sign is
expressible. -/
def sceneTick (start_time elapsed now : Nat) : Except String (Int × Nat) :=
  let since := (durationSince now start_time).getD elapsed
  if since < elapsed then
    Except.error "overflow when subtracting durations"
  else
    Except.ok ((since : Int) - (elapsed : Int), elapsed + (since - elapsed))

/-- C3 counterexample: a wall-clock readback that is later than the start
time but earlier than start + accumulated elapsed (clock stepped backwards
between ticks: start = 0, elapsed = 5, now reads 3) makes the tick panic on
`Duration` subtraction instead of falling back to a zero delta. -/
theorem scene_tick_backwards_clock_panics_cex :
    sceneTick 0 5 3 = Except.error "overflow when subtracting durations" := by
  rfl

/-- C3 amended: every tick that completes yields `dt ≥ 0` and a
non-decreasing cumulative elapsed time, and a readback earlier than the
start time falls back to a zero delta; but a readback at or after the start
time that is earlier than the accumulated elapsed time panics rather than
falling back to zero. -/
theorem scene_tick_dt_nonneg (start_time elapsed now : Nat) :
    (∀ dt elapsed2, sceneTick start_time elapsed now = Except.ok (dt, elapsed2) →
        0 ≤ dt ∧ elapsed ≤ elapsed2) ∧
    (now < start_time → sceneTick start_time elapsed now = Except.ok (0, elapsed)) ∧
    (start_time ≤ now → now - start_time < elapsed →
        sceneTick start_time elapsed now =
          Except.error "overflow when subtracting durations") := by
  refine ⟨?_, ?_, ?_⟩
  · intro dt elapsed2 h
    simp only [sceneTick, durationSince] at h
    by_cases hs : start_time ≤ now
    · rw [if_pos hs] at h
      by_cases hlt : now - start_time < elapsed
      · simp only [Option.getD_some, if_pos hlt] at h
        exact Except.noConfusion h
      · simp only [Option.getD_some, if_neg hlt] at h
        rcases Except.ok.inj h with h2
        rcases Prod.mk.injEq .. ▸ h2 with ⟨hdt, hel⟩
        constructor
        · omega
        · omega
    · rw [if_neg hs] at h
      simp only [Option.getD_none, lt_irrefl, if_neg (lt_irrefl elapsed)] at h
      rcases Except.ok.inj h with h2
      rcases Prod.mk.injEq .. ▸ h2 with ⟨hdt, hel⟩
      omega
  · intro hlt
    have hs : ¬ start_time ≤ now := by omega
    simp [sceneTick, durationSince, hs]
  · intro hs hlt
    simp [sceneTick, durationSince, hs, hlt]

/-- C3 witness: the amended theorem applied at a completed tick
(start 0, elapsed 3, now 10 gives dt 7) and at a pre-start readback. -/
theorem scene_tick_dt_nonneg_witness :
    ((0 : Int) ≤ 7 ∧ (3 : Nat) ≤ 10) ∧ sceneTick 5 0 2 = Except.ok (0, 0) := by
  constructor
  · exact (scene_tick_dt_nonneg 0 3 10).1 7 10 rfl
  · exact (scene_tick_dt_nonneg 5 0 2).2.1 (by decide)

/-- The two `SceneCrdtState` operations the scene thread calls
(`process_many_messages` on a `DclReader` over the snapshot bytes, and
`take_dirty`), supplied by the out-of-repository `dcl::crdt` module. -/
structure CrdtOps (S D : Type) where
  processManyMessages : S → List Nat → S
  takeDirty : S → D × S

/-- Result of the start phase of `scene_thread` (everything before the engine
is constructed and the loader scripts run). -/
structure StartPhase (S D R : Type) where
  emitted : List (SceneResponse D R)
  crdtState : S
  sceneMainCrdt : Option (List Nat)
  engineConstructed : Bool
  proceed : Bool

/-- Model of `format!("{s:?}")` on a `String`: the Debug rendering wraps the text in
quotes (no character of the modelled message needs escaping). -/
def rustDebugFormat (s : String) : String := "\"" ++ s ++ "\""

/-- Whether a `SceneResponse` is the startup/fatal `Error` variant. -/
def sceneResponseIsError (D R : Type) : SceneResponse D R → Bool
  | SceneResponse.error _ _ => true
  | _ => false

/-- The start phase of `scene_thread`, statement for statement from the
source: if `local_main_crdt_file_path` is non-empty and the file opens, its
bytes are replayed through `process_many_messages`, the dirty set is taken
and sent as an `Ok` response with no logs, `delta = 0.0` and no rpc calls —
all before the main script file is even opened; then the main script file is
opened, and if it is absent an `Error` response is sent and the function
returns (the engine is never constructed).  `fs` models
`godot::engine::FileAccess::open` (bytes for `get_buffer`, text for
`get_as_text`). -/
def sceneThreadStart (S D R : Type) (ops : CrdtOps S D)
    (fs : String → Option (List Nat × String)) (scene_id : SceneId)
    (local_main_js_file_path local_main_crdt_file_path : String)
    (initState : S) : StartPhase S D R :=
  let step1 : List (SceneResponse D R) × S × Option (List Nat) :=
    if local_main_crdt_file_path ≠ "" then
      match fs local_main_crdt_file_path with
      | some (buf, _) =>
        let s1 := ops.processManyMessages initState buf
        ([SceneResponse.ok scene_id (ops.takeDirty s1).1 [] 0 []],
         (ops.takeDirty s1).2, some buf)
      | none => ([], initState, none)
    else ([], initState, none)
  match fs local_main_js_file_path with
  | none =>
    { emitted := step1.1 ++ [SceneResponse.error scene_id
        (rustDebugFormat ("Scene `" ++ local_main_js_file_path ++ "` not found - file is none"))],
      crdtState := step1.2.1,
      sceneMainCrdt := step1.2.2,
      engineConstructed := false,
      proceed := false }
  | some _ =>
    { emitted := step1.1,
      crdtState := step1.2.1,
      sceneMainCrdt := step1.2.2,
      engineConstructed := true,
      proceed := true }

/-- C8: when a main.crdt path is supplied and readable, the very first
`SceneResponse` the scene thread emits is a successful-tick response carrying
the dirty set extracted right after replaying the snapshot, with no logs,
elapsed `0` and no rpc calls; the replayed bytes are retained and the store
is left in the post-`take_dirty` state.  This happens in the phase before the
main script is opened, so before any script code executes. -/
theorem main_crdt_replay_emits_first (S D R : Type) (ops : CrdtOps S D)
    (fs : String → Option (List Nat × String)) (scene_id : SceneId)
    (jsPath crdtPath : String) (initState : S) (buf : List Nat) (txt : String)
    (hne : crdtPath ≠ "") (hfs : fs crdtPath = some (buf, txt)) :
    (sceneThreadStart S D R ops fs scene_id jsPath crdtPath initState).emitted.head? =
      some (SceneResponse.ok scene_id
        (ops.takeDirty (ops.processManyMessages initState buf)).1 [] 0 []) ∧
    (sceneThreadStart S D R ops fs scene_id jsPath crdtPath initState).sceneMainCrdt =
      some buf ∧
    (sceneThreadStart S D R ops fs scene_id jsPath crdtPath initState).crdtState =
      (ops.takeDirty (ops.processManyMessages initState buf)).2 := by
  cases hjs : fs jsPath <;>
    simp [sceneThreadStart, hne, hfs, hjs]

/-- C8 witness: the theorem applied to a concrete store, file system and
snapshot. -/
theorem main_crdt_replay_emits_first_witness :
    (sceneThreadStart Nat Nat Unit
        { processManyMessages := fun s b => s + b.length, takeDirty := fun s => (s, 0) }
        (fun p => if p = "main.crdt" then some ([1, 2], "") else none)
        { val := 1 } "game.js" "main.crdt" 0).emitted.head? =
      some (SceneResponse.ok { val := 1 } 2 [] 0 []) ∧
    (sceneThreadStart Nat Nat Unit
        { processManyMessages := fun s b => s + b.length, takeDirty := fun s => (s, 0) }
        (fun p => if p = "main.crdt" then some ([1, 2], "") else none)
        { val := 1 } "game.js" "main.crdt" 0).sceneMainCrdt = some [1, 2] ∧
    (sceneThreadStart Nat Nat Unit
        { processManyMessages := fun s b => s + b.length, takeDirty := fun s => (s, 0) }
        (fun p => if p = "main.crdt" then some ([1, 2], "") else none)
        { val := 1 } "game.js" "main.crdt" 0).crdtState = 0 := by
  exact main_crdt_replay_emits_first Nat Nat Unit
    { processManyMessages := fun s b => s + b.length, takeDirty := fun s => (s, 0) }
    (fun p => if p = "main.crdt" then some ([1, 2], "") else none)
    { val := 1 } "game.js" "main.crdt" 0 [1, 2] "" (by decide) (by decide)

/-- Model of `SceneEnv` (serde-serialized for the `env` pseudo-module). -/
structure SceneEnv where
  enable_know_env : Bool
  testing_enable : Bool
deriving DecidableEq, Repr

/-- Model of `serde_json::to_string` of a `SceneEnv`. -/
def sceneEnvJson (e : SceneEnv) : String :=
  "\x7b\"enable_know_env\":" ++ (if e.enable_know_env then "true" else "false") ++
    ",\"testing_enable\":" ++ (if e.testing_enable then "true" else "false") ++ "\x7d"

/-- Model of `get_env_for_scene`. -/
def get_env_for_scene (e : SceneEnv) : String :=
  if e.enable_know_env then "module.exports = " ++ sceneEnvJson e
  else "module.exports = \x7b\x7d"

/-- Stand-ins for the `include_str!` contents of the bundled `js_modules`
files (the concrete JS text is immaterial to the control flow). -/
def utils_js : String := "js_modules/utils.js"

def communications_controller_js : String := "js_modules/CommunicationsController.js"

def engine_api_js : String := "js_modules/EngineApi.js"

def environment_api_js : String := "js_modules/EnvironmentApi.js"

def ethereum_controller_js : String := "js_modules/EthereumController.js"

def players_js : String := "js_modules/Players.js"

def portable_experiences_js : String := "js_modules/PortableExperiences.js"

def restricted_actions_js : String := "js_modules/RestrictedActions.js"

def fetch_js : String := "js_modules/fetch.js"

def ws_js : String := "js_modules/ws.js"

def runtime_js : String := "js_modules/Runtime.js"

def scene_module_js : String := "js_modules/Scene.js"

def signed_fetch_js : String := "js_modules/SignedFetch.js"

def testing_js : String := "js_modules/Testing.js"

def user_action_module_js : String := "js_modules/UserActionModule.js"

def user_identity_js : String := "js_modules/UserIdentity.js"

def comms_api_js : String := "js_modules/CommsApi.js"

/-- The op-state slice `op_require` reads: the one-shot
`SceneJsFileContent` resource and the `SceneEnv`. -/
structure OpRequireState where
  sceneJsFileContent : Option String
  sceneEnv : SceneEnv
deriving DecidableEq, Repr

/-- The closed set of module names `op_require` accepts, in source order. -/
def registeredModules : List String :=
  ["~scene.js", "~utils.js", "~system/CommunicationsController", "~system/EngineApi",
   "~system/EnvironmentApi", "~system/EthereumController", "~system/Players",
   "~system/PortableExperiences", "~system/RestrictedActions", "fetch", "ws",
   "~system/Runtime", "~system/Scene", "~system/SignedFetch", "~system/Testing",
   "~system/UserActionModule", "~system/UserIdentity", "~system/CommsApi", "env"]

/-- Model of `op_require`, branch for branch from the source match.  Requiring
`~scene.js` performs `state.take::<SceneJsFileContent>()` (one-shot: the
resource leaves the state; taking it twice panics, modelled as an error).
Every name outside the match arms falls to the
`invalid module request` error. -/
def op_require (st : OpRequireState) (module_spec : String) :
    Except String (String × OpRequireState) :=
  if module_spec = "~scene.js" then
    match st.sceneJsFileContent with
    | some code => Except.ok (code, { st with sceneJsFileContent := none })
    | none => Except.error "SceneJsFileContent resource not present"
  else if module_spec = "~utils.js" then Except.ok (utils_js, st)
  else if module_spec = "~system/CommunicationsController" then
    Except.ok (communications_controller_js, st)
  else if module_spec = "~system/EngineApi" then Except.ok (engine_api_js, st)
  else if module_spec = "~system/EnvironmentApi" then Except.ok (environment_api_js, st)
  else if module_spec = "~system/EthereumController" then
    Except.ok (ethereum_controller_js, st)
  else if module_spec = "~system/Players" then Except.ok (players_js, st)
  else if module_spec = "~system/PortableExperiences" then
    Except.ok (portable_experiences_js, st)
  else if module_spec = "~system/RestrictedActions" then
    Except.ok (restricted_actions_js, st)
  else if module_spec = "fetch" then Except.ok (fetch_js, st)
  else if module_spec = "ws" then Except.ok (ws_js, st)
  else if module_spec = "~system/Runtime" then Except.ok (runtime_js, st)
  else if module_spec = "~system/Scene" then Except.ok (scene_module_js, st)
  else if module_spec = "~system/SignedFetch" then Except.ok (signed_fetch_js, st)
  else if module_spec = "~system/Testing" then Except.ok (testing_js, st)
  else if module_spec = "~system/UserActionModule" then
    Except.ok (user_action_module_js, st)
  else if module_spec = "~system/UserIdentity" then Except.ok (user_identity_js, st)
  else if module_spec = "~system/CommsApi" then Except.ok (comms_api_js, st)
  else if module_spec = "env" then Except.ok (get_env_for_scene st.sceneEnv, st)
  else Except.error ("invalid module request `" ++ module_spec ++ "`")

/-- C9: if the main script file is absent, the start phase emits exactly one
startup-error response, carrying the scene identity and the not-found
message, and the thread returns without constructing the engine or entering
the tick loop; and every module name outside the closed registered namespace
makes `op_require` fail with the explicit `invalid module request` error. -/
theorem missing_script_and_closed_modules :
    (∀ (S D R : Type) (ops : CrdtOps S D) (fs : String → Option (List Nat × String))
        (scene_id : SceneId) (jsPath crdtPath : String) (initState : S),
        fs jsPath = none →
        ((sceneThreadStart S D R ops fs scene_id jsPath crdtPath initState).emitted.filter
            (fun r => sceneResponseIsError D R r)) =
          [SceneResponse.error scene_id
            (rustDebugFormat ("Scene `" ++ jsPath ++ "` not found - file is none"))] ∧
        (sceneThreadStart S D R ops fs scene_id jsPath crdtPath initState).engineConstructed =
          false ∧
        (sceneThreadStart S D R ops fs scene_id jsPath crdtPath initState).proceed = false) ∧
    (∀ (st : OpRequireState) (module_spec : String),
        module_spec ∉ registeredModules →
        op_require st module_spec =
          Except.error ("invalid module request `" ++ module_spec ++ "`")) := by
  constructor
  · intro S D R ops fs scene_id jsPath crdtPath initState hjs
    by_cases hc : crdtPath ≠ ""
    · cases hfc : fs crdtPath with
      | none =>
        simp [sceneThreadStart, hjs, hc, hfc, sceneResponseIsError]
      | some p =>
        rcases p with ⟨buf, txt⟩
        simp [sceneThreadStart, hjs, hc, hfc, sceneResponseIsError]
    · simp [sceneThreadStart, hjs, hc, sceneResponseIsError]
  · intro st module_spec h
    simp only [registeredModules, List.mem_cons, List.not_mem_nil, or_false, not_or] at h
    obtain ⟨h1, h2, h3, h4, h5, h6, h7, h8, h9, h10, h11, h12, h13, h14, h15, h16, h17,
      h18, h19⟩ := h
    simp [op_require, h1, h2, h3, h4, h5, h6, h7, h8, h9, h10, h11, h12, h13, h14, h15,
      h16, h17, h18, h19]

/-- C9 witness: the theorem applied to a file system with no script file and
to the unregistered module name `~system/Unknown`. -/
theorem missing_script_and_closed_modules_witness :
    (((sceneThreadStart Nat Nat Unit
          { processManyMessages := fun s _ => s, takeDirty := fun s => (s, 0) }
          (fun _ => none) { val := 3 } "game.js" "" 0).emitted.filter
            (fun r => sceneResponseIsError Nat Unit r)) =
        [SceneResponse.error { val := 3 }
          (rustDebugFormat ("Scene `" ++ "game.js" ++ "` not found - file is none"))] ∧
      (sceneThreadStart Nat Nat Unit
          { processManyMessages := fun s _ => s, takeDirty := fun s => (s, 0) }
          (fun _ => none) { val := 3 } "game.js" "" 0).engineConstructed = false ∧
      (sceneThreadStart Nat Nat Unit
          { processManyMessages := fun s _ => s, takeDirty := fun s => (s, 0) }
          (fun _ => none) { val := 3 } "game.js" "" 0).proceed = false) ∧
    op_require { sceneJsFileContent := some "code",
                 sceneEnv := { enable_know_env := false, testing_enable := false } }
        "~system/Unknown" =
      Except.error ("invalid module request `" ++ "~system/Unknown" ++ "`") := by
  constructor
  · exact missing_script_and_closed_modules.1 Nat Nat Unit
      { processManyMessages := fun s _ => s, takeDirty := fun s => (s, 0) }
      (fun _ => none) { val := 3 } "game.js" "" 0 rfl
  · exact missing_script_and_closed_modules.2
      { sceneJsFileContent := some "code",
        sceneEnv := { enable_know_env := false, testing_enable := false } }
      "~system/Unknown" (by decide)

/- ### Comms: `src/rust/decentraland-godot-lib/src/comms/communication_manager.rs` -/

/-- Model of `rfc4::Position` over an abstract scalar type `V` (the `f32` vector and
quaternion components are opaque here).  The wire `index` field is `u32`; the
source writes `index as u32`, so the model stores the value modulo `2 ^ 32`. -/
structure Rfc4Position (V : Type) where
  index : Nat
  position_x : V
  position_y : V
  position_z : V
  rotation_x : V
  rotation_y : V
  rotation_z : V
  rotation_w : V
deriving DecidableEq, Repr

/-- Model of `rfc4::packet::Message` (only the variant built here is needed). -/
inductive Rfc4Message (V : Type) where
  | position : Rfc4Position V → Rfc4Message V
deriving DecidableEq, Repr

/-- Model of `rfc4::Packet`. -/
structure Rfc4Packet (V : Type) where
  message : Option (Rfc4Message V)
deriving DecidableEq, Repr

/-- Model of `CommsConnection`, with the adapter (`Box<dyn Adapter>`) abstracted to a
state of type `A`, and `SignedLogin`'s payload abstracted away. -/
inductive CommsConnection (A : Type) where
  | none : CommsConnection A
  | waitingForIdentity : String → CommsConnection A
  | signedLogin : CommsConnection A
  | connected : A → CommsConnection A
deriving DecidableEq, Repr

/-- The `CommunicationManager` fields `broadcast_position_and_rotation`
touches (`last_position_broadcast_index` is `u64`). -/
structure CommunicationManager (A : Type) where
  current_connection : CommsConnection A
  current_connection_str : String
  last_position_broadcast_index : Nat
deriving DecidableEq, Repr

/-- Whether the connection is in the `Connected` state. -/
def commsIsConnected (A : Type) : CommsConnection A → Bool
  | CommsConnection.connected _ => true
  | _ => false

/-- Model of `broadcast_position_and_rotation`, with `Adapter::send_rfc4` abstracted
as a state transformer `send_rfc4 : A → packet → unreliable-flag → (sent?,
new adapter state)` and vector/quaternion negation as `neg`.  The packet
index is `last_position_broadcast_index as u32`; on a reported send the `u64`
counter is incremented by one (wrapping). -/
def broadcast_position_and_rotation (A V : Type)
    (send_rfc4 : A → Rfc4Packet V → Bool → Bool × A) (neg : V → V)
    (m : CommunicationManager A)
    (px py pz rx ry rz rw : V) : Bool × CommunicationManager A :=
  let index := m.last_position_broadcast_index
  let packet : Rfc4Packet V :=
    { message := some (Rfc4Message.position
        { index := index % 2 ^ 32,
          position_x := px, position_y := py, position_z := neg pz,
          rotation_x := rx, rotation_y := ry, rotation_z := neg rz,
          rotation_w := neg rw }) }
  match m.current_connection with
  | CommsConnection.none | CommsConnection.signedLogin | CommsConnection.waitingForIdentity _ =>
    (false, m)
  | CommsConnection.connected a =>
    let res := send_rfc4 a packet true
    let m2 := { m with current_connection := CommsConnection.connected res.2 }
    if res.1 then
      (true, { m2 with
        last_position_broadcast_index := (m2.last_position_broadcast_index + 1) % 2 ^ 64 })
    else (false, m2)

/-- Extracts the index carried by a position packet (for the log-recording
adapter used in the theorems). -/
def packetIndex (V : Type) (p : Rfc4Packet V) : Nat :=
  match p.message with
  | some (Rfc4Message.position pos) => pos.index
  | none => 0

/-- An adapter instantiation whose state records the index of every packet it
reports as sent. -/
def loggingSend : List Nat → Rfc4Packet Unit → Bool → Bool × List Nat :=
  fun log p _ => (true, log ++ [packetIndex Unit p])

/-- The recorded packet-index log of a manager connected through the logging
adapter. -/
def adapterLog (m : CommunicationManager (List Nat)) : List Nat :=
  match m.current_connection with
  | CommsConnection.connected log => log
  | _ => []

/-- C10 counterexample: from a connected manager whose `u64` counter stands
at `2 ^ 32 - 1` (reachable after that many reported sends), two consecutive
successfully-sent position packets carry wire indices `2 ^ 32 - 1` and then
`0` — the `index as u32` truncation makes the carried index wrap, so the
carried values are not strictly increasing. -/
theorem broadcast_position_index_wraps_cex :
    adapterLog (broadcast_position_and_rotation (List Nat) Unit loggingSend (fun u => u)
        (broadcast_position_and_rotation (List Nat) Unit loggingSend (fun u => u)
          { current_connection := CommsConnection.connected [],
            current_connection_str := "",
            last_position_broadcast_index := 2 ^ 32 - 1 }
          () () () () () () ()).2
        () () () () () () ()).2 = [2 ^ 32 - 1, 0] ∧
    ¬ (2 ^ 32 - 1 : Nat) < 0 := by
  constructor
  · rfl
  · decide

theorem broadcast_counter_step (A V : Type)
    (send_rfc4 : A → Rfc4Packet V → Bool → Bool × A) (neg : V → V)
    (m : CommunicationManager A) (px py pz rx ry rz rw : V) :
    (broadcast_position_and_rotation A V send_rfc4 neg m
        px py pz rx ry rz rw).2.last_position_broadcast_index =
      (if (broadcast_position_and_rotation A V send_rfc4 neg m px py pz rx ry rz rw).1 then
        (m.last_position_broadcast_index + 1) % 2 ^ 64
       else m.last_position_broadcast_index) := by
  cases hcc : m.current_connection with
  | none => simp [broadcast_position_and_rotation, hcc]
  | waitingForIdentity s => simp [broadcast_position_and_rotation, hcc]
  | signedLogin => simp [broadcast_position_and_rotation, hcc]
  | connected a =>
    simp only [broadcast_position_and_rotation, hcc]
    split <;> simp

/-- C10 amended: a call on a non-Connected manager returns `false` and leaves
the whole manager (in particular `last_position_broadcast_index`) unchanged;
the `u64` counter is incremented by exactly one (mod `2 ^ 64`) iff the
adapter reports the packet as sent; every sent packet carries index equal to
the counter modulo `2 ^ 32`, so consecutive successfully-sent packets carry
strictly increasing indices as long as fewer than `2 ^ 32` sends have
occurred, but not across the `u32` wrap. -/
theorem broadcast_position_index_spec (A V : Type)
    (send_rfc4 : A → Rfc4Packet V → Bool → Bool × A) (neg : V → V)
    (m : CommunicationManager A) (px py pz rx ry rz rw : V) :
    (commsIsConnected A m.current_connection = false →
        broadcast_position_and_rotation A V send_rfc4 neg m px py pz rx ry rz rw =
          (false, m)) ∧
    (∀ b m2, broadcast_position_and_rotation A V send_rfc4 neg m px py pz rx ry rz rw =
        (b, m2) →
      m2.last_position_broadcast_index =
        (if b then (m.last_position_broadcast_index + 1) % 2 ^ 64
         else m.last_position_broadcast_index)) ∧
    (∀ c : Nat, c + 1 < 2 ^ 32 →
        adapterLog (broadcast_position_and_rotation (List Nat) Unit loggingSend (fun u => u)
            (broadcast_position_and_rotation (List Nat) Unit loggingSend (fun u => u)
              { current_connection := CommsConnection.connected [],
                current_connection_str := "",
                last_position_broadcast_index := c }
              () () () () () () ()).2
            () () () () () () ()).2 = [c % 2 ^ 32, (c + 1) % 2 ^ 32] ∧
        c % 2 ^ 32 < (c + 1) % 2 ^ 32) := by
  refine ⟨?_, ?_, ?_⟩
  · intro hnc
    cases hcc : m.current_connection with
    | none => simp [broadcast_position_and_rotation, hcc]
    | waitingForIdentity s => simp [broadcast_position_and_rotation, hcc]
    | signedLogin => simp [broadcast_position_and_rotation, hcc]
    | connected a => rw [hcc] at hnc; simp [commsIsConnected] at hnc
  · intro b m2 h
    have hstep := broadcast_counter_step A V send_rfc4 neg m px py pz rx ry rz rw
    rw [h] at hstep
    simpa using hstep
  · intro c hlt
    constructor
    · simp [broadcast_position_and_rotation, loggingSend, adapterLog, packetIndex]
      omega
    · have hc32 : c % 2 ^ 32 = c := Nat.mod_eq_of_lt (by omega)
      have hc32s : (c + 1) % 2 ^ 32 = c + 1 := Nat.mod_eq_of_lt hlt
      omega

/-- C10 witness: the amended theorem applied at a disconnected manager and at
the two-send scenario starting from counter 5. -/
theorem broadcast_position_index_spec_witness :
    (broadcast_position_and_rotation (List Nat) Unit loggingSend (fun u => u)
        { current_connection := CommsConnection.none, current_connection_str := "",
          last_position_broadcast_index := 5 } () () () () () () () =
      (false,
        { current_connection := CommsConnection.none, current_connection_str := "",
          last_position_broadcast_index := 5 })) ∧
    (adapterLog (broadcast_position_and_rotation (List Nat) Unit loggingSend (fun u => u)
        (broadcast_position_and_rotation (List Nat) Unit loggingSend (fun u => u)
          { current_connection := CommsConnection.connected [],
            current_connection_str := "",
            last_position_broadcast_index := 5 }
          () () () () () () ()).2
        () () () () () () ()).2 = [5 % 2 ^ 32, (5 + 1) % 2 ^ 32] ∧
      5 % 2 ^ 32 < (5 + 1) % 2 ^ 32) := by
  constructor
  · exact (broadcast_position_index_spec (List Nat) Unit loggingSend (fun u => u)
      { current_connection := CommsConnection.none, current_connection_str := "",
        last_position_broadcast_index := 5 } () () () () () () ()).1 rfl
  · exact (broadcast_position_index_spec (List Nat) Unit loggingSend (fun u => u)
      { current_connection := CommsConnection.none, current_connection_str := "",
        last_position_broadcast_index := 5 } () () () () () () ()).2.2 5 (by norm_num)
